import Mathlib

/-!
Verification development for `tensorflow_estimator/python/estimator/keras.py`,
the adapter that converts a compiled Keras model into an Estimator.

The Python source is shallowly embedded below: Python values that flow through
the adapter (tensors, numpy arrays, `None`, lists, dicts) become the inductive
type `PyVal`; raised exceptions become the `PyError` type returned through
`Except`; the side effects of `model_to_estimator` (directory creation, remote
download, model loading, checkpoint writing, logging, session creation) are
recorded in an explicit effect trace.  Each definition is translated from the
corresponding Python function; external framework collaborators that the
adapter calls (config resolution, the Keras cloning utilities) are modelled
from their documented contracts, and each such definition says so in its doc
comment.
-/

namespace KerasEstimator

/-- A Python value as it flows through the adapter: a tensor, a numpy array,
`None`, a list/tuple, or a `dict` with string keys (modelled as an
association list in insertion order, as Python dicts preserve it). -/
inductive PyVal where
  | tensor (id : Nat)
  | numpy (id : Nat)
  | pynone
  | pylist (xs : List PyVal)
  | pydict (entries : List (String × PyVal))

/-- Exceptions raised by the adapter.  `formattedKeyError` embeds the
`FormattedKeyError` class of the source (a `KeyError` subclass whose
`__str__` returns the stored multi-line message verbatim, lines 38-52). -/
inductive PyError where
  | valueError (msg : String)
  | typeError (msg : String)
  | formattedKeyError (msg : String)
  deriving DecidableEq

/-- Embeds `FormattedKeyError.__str__` (lines 51-52): the message is returned as is,
with no extra quoting (the point of the class, see the source doc string). -/
def PyError.pyStr : PyError → String
  | .valueError m => m
  | .typeError m => m
  | .formattedKeyError m => m

def exceptIsOk {ε α : Type} : Except ε α → Bool
  | .ok _ => true
  | .error _ => false

/-! ### Dictionary helpers (Python dict / set semantics) -/

/-- Keys of a Python dict, in insertion order. -/
def pyKeys {α : Type} (m : List (String × α)) : List String := m.map Prod.fst

/-- Lookup `m[k]` as an `Option` (first binding wins, matching a well-formed Python
dict, which has no duplicate keys). -/
def assocLookup {α : Type} (m : List (String × α)) (k : String) : Option α :=
  match m with
  | [] => none
  | (k', v) :: rest => if k' = k then some v else assocLookup rest k

/-- Lookup `m[k]`, defaulting to `None`; only used after key presence is checked,
mirroring the guarded accesses in the source. -/
def pyLookup (m : List (String × PyVal)) (k : String) : PyVal :=
  (assocLookup m k).getD .pynone

/-- The contents of `set(l)`: duplicates removed.  Python set iteration order
is unspecified; only membership matters for the properties proved here. -/
def pySet : List String → List String
  | [] => []
  | k :: rest => if k ∈ rest then pySet rest else k :: pySet rest

/-- Python `set(a) - set(b)`. -/
def pySetDiff (a b : List String) : List String :=
  (pySet a).filter (fun k => decide (k ∉ b))

/-- Python `set(a) == set(b)` as used at line 186-187 of the source. -/
def pyKeySetEq (a b : List String) : Bool :=
  a.all (fun k => decide (k ∈ b)) && b.all (fun k => decide (k ∈ a))

/-- Python's `repr` of a set of strings, as interpolated by `str.format`
(e.g. `\x7b'a', 'b'\x7d`). -/
def renderKeySet (l : List String) : String :=
  "\x7b" ++ String.intercalate ", " (l.map (fun k => "\x27" ++ k ++ "\x27")) ++ "\x7d"

/-- Python's `repr` of a list of strings (e.g. `['a', 'b']`). -/
def renderKeyList (l : List String) : String :=
  "[" ++ String.intercalate ", " (l.map (fun k => "\x27" ++ k ++ "\x27")) ++ "]"

/-- One insertion step of building a Python dict: an existing binding for the
key is overwritten in place, otherwise the pair is appended. -/
def pyDictInsert {α : Type} (m : List (String × α)) (k : String) (v : α) : List (String × α) :=
  if m.any (fun kv => kv.1 == k) then
    m.map (fun kv => if kv.1 == k then (k, v) else kv)
  else m ++ [(k, v)]

/-- Python `dict(pairs)` / a dict comprehension over `pairs`: later bindings for the
same key overwrite earlier ones. -/
def pyDictOfPairs {α : Type} (pairs : List (String × α)) : List (String × α) :=
  pairs.foldl (fun m kv => pyDictInsert m kv.1 kv.2) []

/-! ### `_convert_tensor` (lines 63-68) and the I/O tensor mapper -/

/-- Embeds `_convert_tensor`: a numpy array is converted to a tensor, a value that is
already a tensor is returned unchanged (lines 63-68).  The claims below only
exercise it on leaf values. -/
def convertTensor (x : PyVal) : PyVal :=
  match x with
  | .numpy n => .tensor n
  | x => x

/-- The message built at lines 136-146 for the `FormattedKeyError`: the
`str.format` call with the four placeholders substituted. -/
def formattedKeyMessage (objName orderName : String) (keyOrder objKeys : List String) : String :=
  "The dictionary passed into " ++ objName ++ " does not cover requested "
    ++ orderName ++ " keys defined in the keras model."
    ++ "\n\tExpected keys: " ++ renderKeySet (pySet keyOrder)
    ++ "\n\t" ++ objName ++ " keys: " ++ renderKeySet (pySet objKeys)
    ++ "\n\tMissed keys: " ++ renderKeySet (pySetDiff keyOrder objKeys)

/-- Embeds `_to_ordered_tensor_list` (lines 109-150): `None` passes through, a
list/tuple is converted elementwise, a dict is checked for coverage of
`key_order` (extra keys are allowed) and read out in `key_order` order, and
any other value is treated as a single tensor. -/
def toOrderedTensorList (obj : PyVal) (keyOrder : List String)
    (objName orderName : String) : Except PyError (Option (List PyVal)) :=
  match obj with
  | .pynone => .ok none
  | .pylist xs => .ok (some (xs.map convertTensor))
  | .pydict m =>
      let differentKeys := pySetDiff keyOrder (pyKeys m)
      if differentKeys ≠ [] then
        .error (.formattedKeyError (formattedKeyMessage objName orderName keyOrder (pyKeys m)))
      else
        .ok (some (keyOrder.map (fun k => convertTensor (pyLookup m k))))
  | x => .ok (some [convertTensor x])

/-- Embeds `_extract_sample_weight_tensors` (lines 185-193): only a dict whose key
set is exactly `{'features', 'sample_weights'}` is split; every other value
is passed through with no sample weights. -/
def extractSampleWeightTensors (features : PyVal) : PyVal × Option PyVal :=
  match features with
  | .pydict m =>
      if pyKeySetEq (pyKeys m) ["features", "sample_weights"] then
        (pyLookup m "features", some (pyLookup m "sample_weights"))
      else (.pydict m, none)
  | f => (f, none)

/-! ### Basic lemmas about the dictionary helpers -/

theorem mem_pySet {k : String} {l : List String} : k ∈ pySet l ↔ k ∈ l := by
  induction l with
  | nil => simp [pySet]
  | cons a rest ih =>
      by_cases h : a ∈ rest
      · simp [pySet, h, ih]
        intro hk; rw [hk]; exact h
      · simp [pySet, h, List.mem_cons, ih]

theorem mem_pySetDiff {k : String} {a b : List String} :
    k ∈ pySetDiff a b ↔ k ∈ a ∧ k ∉ b := by
  simp [pySetDiff, List.mem_filter, mem_pySet]

theorem pySetDiff_eq_nil_iff {a b : List String} :
    pySetDiff a b = [] ↔ ∀ k ∈ a, k ∈ b := by
  constructor
  · intro h k hk
    by_contra hnb
    have : k ∈ pySetDiff a b := mem_pySetDiff.mpr ⟨hk, hnb⟩
    simp [h] at this
  · intro h
    rcases hd : pySetDiff a b with _ | ⟨x, xs⟩
    · rfl
    · have hx : x ∈ pySetDiff a b := by rw [hd]; exact List.mem_cons_self x xs
      rcases mem_pySetDiff.mp hx with ⟨hxa, hxb⟩
      exact absurd (h x hxa) hxb

theorem assocLookup_isSome_iff {α : Type} {m : List (String × α)} {k : String} :
    (∃ v, assocLookup m k = some v) ↔ k ∈ pyKeys m := by
  induction m with
  | nil => simp [assocLookup, pyKeys]
  | cons kv rest ih =>
      rcases kv with ⟨k', v'⟩
      by_cases h : k' = k
      · subst h; simp [assocLookup, pyKeys]
      · simp [assocLookup, h, pyKeys] at ih ⊢
        rw [ih]
        constructor
        · intro hk; exact Or.inr hk
        · rintro (hk | hk)
          · exact absurd hk.symm h
          · exact hk

/-! ### The Keras model as seen by the adapter

The adapter only inspects a handful of attributes of the Keras model object;
they are collected in `KerasModel`.  `roundTripImplemented` records whether
`model.__class__.from_config(model.get_config())` succeeds: the default
subclassed-`Model` implementations of those methods raise
`NotImplementedError`, which is the only exception the adapter distinguishes
(line 682). -/

/-- A layer's weights, each recorded by whether it carries the
`_keras_initialized` attribute (lines 85-88). -/
structure KerasLayer where
  weights : List Bool
  deriving DecidableEq

structure KerasModel where
  /-- Python `model._is_graph_network` -/
  isGraphNetwork : Bool
  /-- Python `isinstance(model, models.Sequential)` -/
  isSequential : Bool
  /-- Python `hasattr(model, 'optimizer')` -/
  hasOptimizerAttr : Bool
  /-- truthiness of `model.optimizer` (set by `compile`) -/
  optimizerTruthy : Bool
  /-- whether `from_config(get_config())` succeeds (else it raises
  `NotImplementedError`, the case line 682 catches) -/
  roundTripImplemented : Bool
  /-- Python `model.built` -/
  built : Bool
  layers : List KerasLayer
  /-- Python `model.output_names` -/
  outputNames : List String
  deriving DecidableEq

/-- Embeds `is_subclass` at lines 675-676: not a graph network and not Sequential. -/
def isSubclass (m : KerasModel) : Bool :=
  !m.isGraphNetwork && !m.isSequential

/-- Embeds `_any_weight_initialized` (lines 71-89): `None` yields `False`, eager
execution outside functions yields `True`, otherwise some weight must carry
the `_keras_initialized` attribute. -/
def anyWeightInit (eagerOutsideFunctions : Bool) (m : Option KerasModel) : Bool :=
  match m with
  | none => false
  | some km =>
      if eagerOutsideFunctions then true
      else km.layers.any (fun l => l.weights.any id)

/-- Embeds `_assert_valid_model` (lines 674-685).  The `custom_objects` scope is
opened around the round trip in the source but has no further observable
effect here; the argument is kept to mirror the signature. -/
def assertValidModel (model : KerasModel) (_customObjects : List String) : Except PyError Unit :=
  if isSubclass model then
    if model.roundTripImplemented then .ok ()
    else
      .error (.valueError
        ("Subclassed `Model`s passed to `model_to_estimator` must "
          ++ "implement `Model.get_config` and `Model.from_config`."))
  else .ok ()

/-- The `checkpoint_format` dispatch of `model_to_estimator` (lines 615-626):
returns `save_object_ckpt` (`true` selects object-graph checkpoint saving,
`false` name-based saver checkpoints). -/
def selectCheckpointFormat (checkpointFormat : Option String) (kerasModel : KerasModel) :
    Except PyError Bool :=
  if checkpointFormat = none ∨ checkpointFormat = some "checkpoint" then
    if !(kerasModel.isGraphNetwork || kerasModel.isSequential) then
      .error (.valueError
        "Object-based checkpoints are currently not supported with subclassed models.")
    else .ok true
  else if checkpointFormat = some "saver" then .ok false
  else
    .error (.valueError
      ("Checkpoint format must be one of \"checkpoint\" or \"saver\". Got "
        ++ (checkpointFormat.getD "")))

/-! ### `_convert_keras_metrics_to_estimator` (lines 251-289)

A compiled metric is represented by its name; the returned dictionary maps
the (possibly remapped) metric name to the metric it stands for. -/

def convertKerasMetricsToEstimator (compileMetrics : Bool)
    (compiledMetricNames : List String) (metricNamesMap : List (String × String)) :
    Except PyError (Option (List (String × String))) :=
  if !compileMetrics then .ok none
  else if metricNamesMap ≠ [] then
    let customMapKeys := pySet (pyKeys metricNamesMap)
    let expectedKeys := pySet compiledMetricNames
    let unknown := expectedKeys.filter (fun k => decide (k ∉ customMapKeys))
    if unknown ≠ [] then
      .error (.valueError
        ("Invalid `metric_names_map`. "
          ++ "The following keras model metric names:\"" ++ renderKeyList unknown
          ++ "\" do not exist in the `metric_names_map` dictionary"))
    else
      let extra := customMapKeys.filter (fun k => decide (k ∉ expectedKeys))
      if extra ≠ [] then
        .error (.valueError
          ("Invalid `metric_names_map`. "
            ++ "There are unexpected keys in the `metric_names_map` "
            ++ "dictionary. Expected keys: " ++ renderKeyList expectedKeys
            ++ ", Received: " ++ renderKeyList extra))
      else
        .ok (some (pyDictOfPairs (compiledMetricNames.map
          (fun n => ((assocLookup metricNamesMap n).getD n, n)))))
  else .ok (some (pyDictOfPairs (compiledMetricNames.map (fun n => (n, n)))))

/-! ### Output-name normalization in `model_fn` (lines 330-342)

`re.compile(r'_\d$').sub('', name)` removes a trailing underscore-plus-digit
pair.  Python's `$` also matches just before a final newline, which the
embedding reproduces; `\d` is modelled on decimal digits. -/

def pyIsDigit (c : Char) : Bool := c.isDigit

/-- Match of the anchored pattern against the end of the (reversed) character
list: the characters left of the match are returned on success. -/
def stripCore (rev : List Char) : Option (List Char) :=
  match rev with
  | d :: c :: rest => if c == '_' && pyIsDigit d then some rest else none
  | _ => none

/-- Embeds `re.compile(r'_\d$').sub('', name)` (line 336). -/
def stripReplicaSuffix (name : String) : String :=
  match stripCore name.data.reverse with
  | some rest => String.mk rest.reverse
  | none =>
      match name.data.reverse with
      | c :: tail =>
          if c == '\n' then
            match stripCore tail with
            | some rest => String.mk (rest.reverse ++ ['\n'])
            | none => name
          else name
      | [] => name

/-- Does the name end in an underscore followed by a single digit? -/
def endsInUnderscoreDigit (s : String) : Bool :=
  match s.data.reverse with
  | d :: c :: _ => c == '_' && pyIsDigit d
  | _ => false

/-- Does the name end in underscore, digit, then a final newline (the extra
position Python's `$` anchor accepts)? -/
def endsInUnderscoreDigitNewline (s : String) : Bool :=
  match s.data.reverse with
  | nl :: d :: c :: _ => nl == '\n' && (c == '_' && pyIsDigit d)
  | _ => false

/-- The `model_output_names` computed at lines 330-339: names are stripped
only when a distribution strategy is active. -/
def modelOutputNames (hasStrategy : Bool) (outputNames : List String) : List String :=
  if hasStrategy then outputNames.map stripReplicaSuffix else outputNames

/-- Embeds `predictions = dict(zip(model_output_names, model.outputs))` (line 342). -/
def predictionsDict (hasStrategy : Bool) (outputNames : List String)
    (outputs : List PyVal) : List (String × PyVal) :=
  pyDictOfPairs ((modelOutputNames hasStrategy outputNames).zip outputs)

/-! ### State restoration in `model_fn` (lines 233-241 and 363-367)

`models.clone_and_build_model` and
`models.in_place_subclassed_model_state_restoration` are Keras collaborators
(not part of this repository); their effect on the original model object is
modelled from their documented contract: with `in_place_reset=True` the
cloning utility stashes the model's layer attributes in
`_original_attributes_cache` and replaces them, and the restoration helper
puts the stashed attributes back and clears the cache. -/

/-- The attribute state of the caller's model visible to `model_fn`:
`attrs` stands for the stored configuration/layer attributes, and
`originalAttributesCache` for `_original_attributes_cache` (`none` when the
attribute is absent or `None`, line 364-365). -/
structure ModelAttrState (α : Type) where
  isGraphNetwork : Bool
  attrs : α
  originalAttributesCache : Option α

/-- Effect of `models.clone_and_build_model` on the original model (modelled
collaborator): called with `in_place_reset=(not keras_model._is_graph_network)`
(line 239), so a graph network is untouched and a free-form subclassed model
has its attributes stashed in the cache and replaced by `resetAttrs`. -/
def cloneAndBuildStateEffect {α : Type} (resetAttrs : α) (m : ModelAttrState α) :
    ModelAttrState α :=
  if m.isGraphNetwork then m
  else { m with attrs := resetAttrs, originalAttributesCache := some m.attrs }

/-- Models the collaborator `models.in_place_subclassed_model_state_restoration` (modelled
collaborator): restores the stashed attributes and clears the cache. -/
def inPlaceSubclassedModelStateRestoration {α : Type} (m : ModelAttrState α) :
    ModelAttrState α :=
  match m.originalAttributesCache with
  | some a => { m with attrs := a, originalAttributesCache := none }
  | none => m

/-- Net effect of one `model_fn` invocation on the caller's model state:
cloning (line 323, via `_clone_and_build_model`, line 233-241) followed by
the conditional restoration at lines 363-367. -/
def modelFnStateEffect {α : Type} (resetAttrs : α) (m : ModelAttrState α) :
    ModelAttrState α :=
  let afterClone := cloneAndBuildStateEffect resetAttrs m
  if !m.isGraphNetwork && afterClone.originalAttributesCache.isSome then
    inPlaceSubclassedModelStateRestoration afterClone
  else afterClone

/-! ### `model_to_estimator` (lines 492-671) with an explicit effect trace -/

/-- Observable side effects of the conversion entry point. -/
inductive Effect where
  /-- Python `tempfile.mkdtemp` during config resolution (model dir unset) -/
  | makeTempModelDir (dir : String)
  | logInfo (msg : String)
  | logWarn (msg : String)
  /-- Python `tf.compat.v1.gfile.MakeDirs` -/
  | makeDirs (dir : String)
  /-- blob download from Google Cloud Storage (lines 478-480) -/
  | gcsDownload (sourcePath : String) (target : String)
  /-- Python `models.load_model` (line 610) -/
  | loadModel (path : String)
  /-- creating a session and installing it as the Keras backend session
  (lines 645-646) -/
  | setBackendSession
  /-- writing the first checkpoint (lines 439-447) -/
  | saveCheckpoint (path : String)
  deriving DecidableEq

/-- The `RunConfig` argument: only the fields the adapter reads. -/
structure RunConfigArg where
  modelDir : Option String
  isChief : Bool
  sessionConfigHasGpuOptions : Bool
  deriving DecidableEq

/-- The resolved run configuration after
`maybe_overwrite_model_dir_and_session_config`. -/
structure RunConfig where
  modelDir : String
  isChief : Bool
  sessionConfigHasGpuOptions : Bool
  deriving DecidableEq

/-- Ambient facts fixed for one call: the execution mode, filesystem state,
and the outcomes of the external collaborators. -/
structure Env where
  /-- Python `ops.executing_eagerly_outside_functions()` -/
  eagerOutsideFunctions : Bool
  /-- directory `tempfile.mkdtemp` would create -/
  tempModelDir : String
  /-- whether `google.cloud.storage` can be imported (lines 465-470) -/
  gcsLibAvailable : Bool
  /-- whether the `model_dir/keras` directory already exists (line 475) -/
  gcsKerasDirExists : Bool
  /-- whether the blob download succeeds (lines 478-484) -/
  gcsDownloadOk : Bool
  /-- the model `models.load_model` returns -/
  loadedModel : KerasModel
  /-- Python `tf.train.latest_checkpoint(keras_model_dir)` (line 410) -/
  latestCheckpointPath : Option String
  /-- whether `keras_model_dir` exists at line 415 -/
  ckptDirExists : Bool
  deriving DecidableEq

/-- The arguments of `model_to_estimator` (lines 492-499). -/
structure MTEArgs where
  kerasModel : Option KerasModel
  kerasModelPath : Option String
  customObjects : List String
  modelDir : Option String
  config : Option RunConfigArg
  checkpointFormat : Option String
  useV2Estimator : Bool
  metricNamesMap : List (String × String)
  deriving DecidableEq

/-- The Estimator handed back to the caller: the configuration the
constructed object closes over. -/
structure EstimatorResult where
  useV2Estimator : Bool
  saveObjectCkpt : Bool
  warmStartFrom : Option String
  modelDir : String
  deriving DecidableEq

def listContainsSub : List Char → List Char → Bool
  | [], sub => sub.isEmpty
  | c :: cs, sub => sub.isPrefixOf (c :: cs) || listContainsSub cs sub

/-- Embeds `'storage.googleapis.com' in keras_model_path` (line 606). -/
def strContainsSub (s sub : String) : Bool := listContainsSub s.data sub.data

/-- Modelled from the spec: `estimator_lib.maybe_overwrite_model_dir_and_
session_config` lives in `estimator.py`, which is not under `src/`.  Per the
`model_dir` documentation in `src` (lines 550-557): the `model_dir` argument
takes precedence over `config.model_dir`, and when neither is set a directory
is created with `tempfile.mkdtemp`. -/
def maybeOverwriteModelDirAndSessionConfig (env : Env) (config : Option RunConfigArg)
    (modelDir : Option String) : RunConfig × List Effect :=
  let base := config.getD { modelDir := none, isChief := true,
                            sessionConfigHasGpuOptions := false }
  match modelDir with
  | some d =>
      ({ modelDir := d, isChief := base.isChief,
         sessionConfigHasGpuOptions := base.sessionConfigHasGpuOptions }, [])
  | none =>
      match base.modelDir with
      | some d =>
          ({ modelDir := d, isChief := base.isChief,
             sessionConfigHasGpuOptions := base.sessionConfigHasGpuOptions }, [])
      | none =>
          ({ modelDir := env.tempModelDir, isChief := base.isChief,
             sessionConfigHasGpuOptions := base.sessionConfigHasGpuOptions },
           [Effect.makeTempModelDir env.tempModelDir])

/-- Embeds `_get_file_from_google_storage` (lines 452-487): raises `TypeError` when
the storage client is unavailable, creates the local cache directory if
needed, and either downloads the blob (then logs) or raises `ValueError`. -/
def getFileFromGoogleStorage (env : Env) (kerasModelPath : String) (modelDir : String) :
    Except PyError String × List Effect :=
  if !env.gcsLibAvailable then
    (.error (.typeError
      ("Could not save model to Google cloud storage; please "
        ++ "install `google-cloud-storage` via "
        ++ "`pip install google-cloud-storage`.")), [])
  else
    let kerasModelDir := modelDir ++ "/keras"
    let mkdirTrace := if env.gcsKerasDirExists then [] else [Effect.makeDirs kerasModelDir]
    let fileName := kerasModelDir ++ "/keras_model.h5"
    if !env.gcsDownloadOk then
      (.error (.valueError
        ("Failed to download keras model, please check "
          ++ "environment variable GOOGLE_APPLICATION_CREDENTIALS "
          ++ "and model path storage.googleapis.com/\x7bbucket\x7d/\x7bobject\x7d.")),
       mkdirTrace)
    else
      (.ok fileName,
       mkdirTrace ++ [Effect.gcsDownload kerasModelPath fileName,
                      Effect.logInfo ("Saving model to " ++ fileName)])

/-- Embeds `_save_first_checkpoint` (lines 394-449), reduced to its filesystem
behavior: nothing happens when a checkpoint already exists; otherwise the
`keras` subdirectory is created if needed and the first checkpoint written. -/
def saveFirstCheckpoint (env : Env) (config : RunConfig) : String × List Effect :=
  let kerasModelDir := config.modelDir ++ "/keras"
  match env.latestCheckpointPath with
  | some p => (p, [])
  | none =>
      let mkdirTrace := if env.ckptDirExists then [] else [Effect.makeDirs kerasModelDir]
      let path := kerasModelDir ++ "/keras_model.ckpt"
      (path, mkdirTrace ++ [Effect.saveCheckpoint path])

/-- Lines 604-613 of `model_to_estimator`: either use the provided model or
obtain one from the path (downloading from remote storage first when the path
is a GCS URI), then load it. -/
def obtainModelStage (env : Env) (a : MTEArgs) (config : RunConfig) :
    Except PyError KerasModel × List Effect :=
  match a.kerasModel with
  | some km => (.ok km, [Effect.logInfo "Using the Keras model provided."])
  | none =>
      let path := a.kerasModelPath.getD ""
      if path.startsWith "gs://" || strContainsSub path "storage.googleapis.com" then
        match getFileFromGoogleStorage env path config.modelDir with
        | (.error e, t) => (.error e, t)
        | (.ok p, t) =>
            (.ok env.loadedModel,
             t ++ [Effect.logInfo ("Loading models from " ++ p), Effect.loadModel p])
      else
        (.ok env.loadedModel,
         [Effect.logInfo ("Loading models from " ++ path), Effect.loadModel path])

/-- Lines 615-671 of `model_to_estimator`: checkpoint-format dispatch,
compilation check, backend-session handling, warm-start checkpoint, and
construction of the Estimator. -/
def finishStage (env : Env) (a : MTEArgs) (config : RunConfig) (kerasModel : KerasModel) :
    Except PyError EstimatorResult × List Effect :=
  match selectCheckpointFormat a.checkpointFormat kerasModel with
  | .error e => (.error e, [])
  | .ok saveObjectCkpt =>
      if !(kerasModel.hasOptimizerAttr && kerasModel.optimizerTruthy) then
        (.error (.valueError
          ("The given keras model has not been compiled yet. "
            ++ "Please compile the model with `model.compile()` "
            ++ "before calling `model_to_estimator()`.")), [])
      else
        let sessionTrace :=
          if anyWeightInit env.eagerOutsideFunctions (some kerasModel) then
            if config.sessionConfigHasGpuOptions then
              [Effect.logWarn
                ("The Keras backend session has already been set. "
                  ++ "The _session_config passed to model_to_estimator will not be used.")]
            else []
          else [Effect.setBackendSession]
        let warmStart :=
          if kerasModel.isGraphNetwork && config.isChief then
            let (p, te) := saveFirstCheckpoint env config
            (some p, te)
          else
            (none,
             if kerasModel.built then
               [Effect.logWarn
                 ("You are creating an Estimator from a Keras model manually "
                   ++ "subclassed from `Model`, that was already called on some "
                   ++ "inputs (and thus already had weights). We are currently "
                   ++ "unable to preserve the model\x27s state (its weights) as "
                   ++ "part of the estimator in this case. Be warned that the "
                   ++ "estimator has been created using a freshly initialized "
                   ++ "version of your model.\n"
                   ++ "Note that this doesn\x27t affect the state of the model "
                   ++ "instance you passed as `keras_model` argument.")]
             else [])
        (.ok { useV2Estimator := a.useV2Estimator, saveObjectCkpt := saveObjectCkpt,
               warmStartFrom := warmStart.1, modelDir := config.modelDir },
         sessionTrace ++ warmStart.2)

/-- Truthiness of the `keras_model` argument at line 591 (a model object is
always truthy). -/
def kerasModelTruthy (a : MTEArgs) : Bool := a.kerasModel.isSome

/-- Truthiness of the `keras_model_path` argument at line 591 (an empty
string is falsy in Python). -/
def kerasModelPathTruthy (a : MTEArgs) : Bool := !(a.kerasModelPath.getD "" == "")

/-- Embeds `model_to_estimator` (lines 492-671): result paired with the trace of
side effects performed, in order. -/
def modelToEstimator (env : Env) (a : MTEArgs) :
    Except PyError EstimatorResult × List Effect :=
  if !(kerasModelTruthy a || kerasModelPathTruthy a) then
    (.error (.valueError
      "Either `keras_model` or `keras_model_path` needs to be provided."), [])
  else if kerasModelTruthy a && kerasModelPathTruthy a then
    (.error (.valueError
      ("Please specity either `keras_model` or `keras_model_path`, "
        ++ "but not both.")), [])
  else
    match (match a.kerasModel with
           | some km => assertValidModel km a.customObjects
           | none => .ok ()) with
    | .error e => (.error e, [])
    | .ok _ =>
        let config := (maybeOverwriteModelDirAndSessionConfig env a.config a.modelDir).1
        let configTrace := (maybeOverwriteModelDirAndSessionConfig env a.config a.modelDir).2
        match obtainModelStage env a config with
        | (.error e, t) => (.error e, configTrace ++ t)
        | (.ok kerasModel, t) =>
            let fin := finishStage env a config kerasModel
            (fin.1, configTrace ++ t ++ fin.2)

/-! ### Further helper lemmas -/

theorem pyKeys_map_overwrite {α : Type} (m : List (String × α)) (k : String) (v : α) :
    pyKeys (m.map (fun kv => if kv.1 == k then (k, v) else kv)) = pyKeys m := by
  induction m with
  | nil => rfl
  | cons kv rest ih =>
      have hrest : ∀ (a : String) (b : α), (a, b) ∈ rest →
          (if a = k then (k, v) else (a, b)).1 = a := by
        intro a b _
        by_cases hak : a = k
        · simp [hak]
        · simp [hak]
      by_cases h : kv.1 == k
      · have hk : kv.1 = k := eq_of_beq h
        simp only [pyKeys, List.map_cons, List.map_map] at ih ⊢
        simp [h, hk, ih]
        exact hrest
      · simp only [pyKeys, List.map_cons, List.map_map] at ih ⊢
        simp [h, ih]
        exact hrest

theorem pyKeys_pyDictInsert_mem {α : Type} {m : List (String × α)} {k k' : String} {v : α} :
    k' ∈ pyKeys (pyDictInsert m k v) ↔ k' ∈ pyKeys m ∨ k' = k := by
  unfold pyDictInsert
  by_cases hany : m.any (fun kv => kv.1 == k)
  · simp only [hany, if_true, pyKeys_map_overwrite]
    constructor
    · exact Or.inl
    · rintro (h | rfl)
      · exact h
      · obtain ⟨kv, hkv, hbeq⟩ := List.any_eq_true.mp hany
        have hk : kv.1 = k' := eq_of_beq hbeq
        exact hk ▸ List.mem_map_of_mem Prod.fst hkv
  · simp [hany, pyKeys]

theorem pyKeys_pyDictOfPairs_mem {α : Type} {pairs : List (String × α)} {k : String} :
    k ∈ pyKeys (pyDictOfPairs pairs) ↔ k ∈ pyKeys pairs := by
  have main : ∀ (ps : List (String × α)) (acc : List (String × α)),
      k ∈ pyKeys (ps.foldl (fun m kv => pyDictInsert m kv.1 kv.2) acc) ↔
        k ∈ pyKeys acc ∨ k ∈ pyKeys ps := by
    intro ps
    induction ps with
    | nil => intro acc; simp [pyKeys]
    | cons kv rest ih =>
        intro acc
        simp only [List.foldl_cons]
        rw [ih, pyKeys_pyDictInsert_mem]
        simp only [pyKeys, List.map_cons, List.mem_cons]
        tauto
  have h := main pairs []
  simpa [pyDictOfPairs, pyKeys] using h

theorem assertValidModel_ok_or_valueError (km : KerasModel) (co : List String) :
    assertValidModel km co = .ok () ∨
      ∃ msg, assertValidModel km co = .error (.valueError msg) := by
  unfold assertValidModel
  split_ifs
  · exact Or.inl rfl
  · exact Or.inr ⟨_, rfl⟩
  · exact Or.inl rfl

theorem selectCheckpointFormat_ok_or_valueError (cf : Option String) (km : KerasModel) :
    (∃ b, selectCheckpointFormat cf km = .ok b) ∨
      ∃ msg, selectCheckpointFormat cf km = .error (.valueError msg) := by
  unfold selectCheckpointFormat
  split_ifs
  · exact Or.inr ⟨_, rfl⟩
  · exact Or.inl ⟨_, rfl⟩
  · exact Or.inl ⟨_, rfl⟩
  · exact Or.inr ⟨_, rfl⟩

/-! ### Concrete fixtures used by the witness theorems -/

def exampleGraphModel : KerasModel :=
  { isGraphNetwork := true, isSequential := false, hasOptimizerAttr := true,
    optimizerTruthy := true, roundTripImplemented := true, built := false,
    layers := [], outputNames := ["out_1"] }

def exampleBadSubclassModel : KerasModel :=
  { isGraphNetwork := false, isSequential := false, hasOptimizerAttr := true,
    optimizerTruthy := true, roundTripImplemented := false, built := false,
    layers := [], outputNames := ["output_1"] }

def exampleUncompiledModel : KerasModel :=
  { isGraphNetwork := true, isSequential := false, hasOptimizerAttr := false,
    optimizerTruthy := false, roundTripImplemented := true, built := false,
    layers := [], outputNames := ["out_1"] }

def exampleEnv : Env :=
  { eagerOutsideFunctions := false, tempModelDir := "/tmp/model",
    gcsLibAvailable := true, gcsKerasDirExists := false, gcsDownloadOk := true,
    loadedModel := exampleGraphModel, latestCheckpointPath := none,
    ckptDirExists := false }

def emptyMTEArgs : MTEArgs :=
  { kerasModel := none, kerasModelPath := none, customObjects := [],
    modelDir := none, config := none, checkpointFormat := none,
    useV2Estimator := false, metricNamesMap := [] }

/-! ### The claims -/

/-- C4: the checkpoint-format selector of `model_to_estimator` accepts exactly
the two legal string values `"checkpoint"` and `"saver"` (`None` being treated
as `"checkpoint"`): `"checkpoint"` selects object-graph checkpoint saving
(`save_object_ckpt = true`), `"saver"` selects name-based saver checkpoint
saving (`save_object_ckpt = false`), and any other string raises a
`ValueError`. -/
theorem selectCheckpointFormat_two_legal_values (km : KerasModel) :
    (selectCheckpointFormat none km = selectCheckpointFormat (some "checkpoint") km)
    ∧ ((km.isGraphNetwork || km.isSequential) = true →
        selectCheckpointFormat (some "checkpoint") km = .ok true)
    ∧ (selectCheckpointFormat (some "saver") km = .ok false)
    ∧ (∀ s : String, s ≠ "checkpoint" → s ≠ "saver" →
        ∃ msg, selectCheckpointFormat (some s) km = .error (.valueError msg)) := by
  refine ⟨?_, ?_, ?_, ?_⟩
  · simp [selectCheckpointFormat]
  · intro h
    simp [selectCheckpointFormat, h]
  · simp [selectCheckpointFormat]
  · intro s h1 h2
    refine ⟨"Checkpoint format must be one of \"checkpoint\" or \"saver\". Got " ++ s, ?_⟩
    simp [selectCheckpointFormat, h1, h2]

/-- Witness for C4: the illegal string `"saver2"` is rejected with a
`ValueError` on a concrete graph-network model. -/
theorem selectCheckpointFormat_two_legal_values_witness :
    ∃ msg, selectCheckpointFormat (some "saver2") exampleGraphModel
      = .error (.valueError msg) :=
  (selectCheckpointFormat_two_legal_values exampleGraphModel).2.2.2 "saver2"
    (by decide) (by decide)

/-- C5: with the object-graph checkpoint format (`checkpoint_format` absent or
`"checkpoint"`), a free-form subclassed model (neither a graph network nor
Sequential) is rejected with a `ValueError`, while models with known static
structure are accepted for object-graph checkpoints. -/
theorem selectCheckpointFormat_object_graph_subclassed (cf : Option String) (km : KerasModel)
    (h : cf = none ∨ cf = some "checkpoint") :
    (km.isGraphNetwork = false → km.isSequential = false →
      ∃ msg, selectCheckpointFormat cf km = .error (.valueError msg))
    ∧ ((km.isGraphNetwork || km.isSequential) = true →
      selectCheckpointFormat cf km = .ok true) := by
  constructor
  · intro h1 h2
    refine ⟨"Object-based checkpoints are currently not supported with subclassed models.", ?_⟩
    simp [selectCheckpointFormat, h, h1, h2]
  · intro hstat
    simp [selectCheckpointFormat, h, hstat]

/-- Witness for C5: a concrete subclassed model with the default checkpoint
format is rejected with a `ValueError`. -/
theorem selectCheckpointFormat_object_graph_subclassed_witness :
    ∃ msg, selectCheckpointFormat none exampleBadSubclassModel
      = .error (.valueError msg) :=
  (selectCheckpointFormat_object_graph_subclassed none exampleBadSubclassModel
    (Or.inl rfl)).1 rfl rfl

/-- C7: one `model_fn` invocation does not mutate the caller's model
instance: the stored attributes are unchanged afterwards (for free-form
subclassed models they are restored from `_original_attributes_cache`, which
is left cleared), so converting the same model twice (two `model_fn` runs)
also leaves the original attributes unchanged, whatever attribute values the
in-place reset of each cloning writes. -/
theorem modelFn_preserves_original_model_attrs (α : Type) (r₁ r₂ : α)
    (m : ModelAttrState α) :
    ((modelFnStateEffect r₁ m).attrs = m.attrs)
    ∧ ((modelFnStateEffect r₂ (modelFnStateEffect r₁ m)).attrs = m.attrs)
    ∧ (m.isGraphNetwork = false →
        (modelFnStateEffect r₁ m).originalAttributesCache = none)
    ∧ ((modelFnStateEffect r₁ m).isGraphNetwork = m.isGraphNetwork) := by
  rcases m with ⟨gn, attrs, cache⟩
  cases gn <;>
    simp [modelFnStateEffect, cloneAndBuildStateEffect,
      inPlaceSubclassedModelStateRestoration]

/-- A concrete subclassed-model attribute state for the C7 witness. -/
def exampleSubclassState : ModelAttrState Nat :=
  { isGraphNetwork := false, attrs := 3, originalAttributesCache := none }

/-- Witness for C7: a concrete subclassed model state passes through a
`model_fn` invocation with its attributes intact and the cache cleared. -/
theorem modelFn_preserves_original_model_attrs_witness :
    (modelFnStateEffect 7 exampleSubclassState).attrs = exampleSubclassState.attrs
      ∧ (modelFnStateEffect 7 exampleSubclassState).originalAttributesCache = none :=
  ⟨(modelFn_preserves_original_model_attrs Nat 7 9 exampleSubclassState).1,
   (modelFn_preserves_original_model_attrs Nat 7 9 exampleSubclassState).2.2.1 rfl⟩

/-- C8: `_assert_valid_model` raises a `ValueError` exactly when the model is
a free-form subclassed model whose configuration round trip
`from_config(get_config())` is not implemented (raises
`NotImplementedError`); graph-network and Sequential models are never
subjected to the round-trip check. -/
theorem assertValidModel_round_trip_check (m : KerasModel) (co : List String) :
    ((∃ msg, assertValidModel m co = .error (.valueError msg)) ↔
      (isSubclass m = true ∧ m.roundTripImplemented = false))
    ∧ ((m.isGraphNetwork || m.isSequential) = true → assertValidModel m co = .ok ()) := by
  constructor
  · by_cases hs : isSubclass m = true
    · by_cases hr : m.roundTripImplemented = true
      · simp [assertValidModel, hs, hr]
      · simp [assertValidModel, hs, hr]
    · simp [assertValidModel, hs]
  · intro hstat
    cases hgn : m.isGraphNetwork <;> cases hseq : m.isSequential <;>
      simp_all [assertValidModel, isSubclass]

/-- Witness for C8: a concrete subclassed model without a working
configuration round trip is rejected with a `ValueError`. -/
theorem assertValidModel_round_trip_check_witness :
    ∃ msg, assertValidModel exampleBadSubclassModel [] = .error (.valueError msg) :=
  (assertValidModel_round_trip_check exampleBadSubclassModel []).1.mpr ⟨rfl, rfl⟩

/-- C9: sample-weight extraction is determined solely by the key set of the
`features` value: a dict whose key set is exactly
`{'features', 'sample_weights'}` is split into its `'features'` entry and its
`'sample_weights'` entry; any other dict (including one with a strict
superset of those keys) and any non-dict value is returned unchanged with no
sample weights.  The final conjunct relates the embedded Python set-equality
test to plain set semantics. -/
theorem extractSampleWeightTensors_key_set (features : PyVal) :
    (∀ m, features = .pydict m →
        pyKeySetEq (pyKeys m) ["features", "sample_weights"] = true →
        extractSampleWeightTensors features
          = (pyLookup m "features", some (pyLookup m "sample_weights")))
    ∧ (∀ m, features = .pydict m →
        pyKeySetEq (pyKeys m) ["features", "sample_weights"] = false →
        extractSampleWeightTensors features = (features, none))
    ∧ ((∀ m, features ≠ .pydict m) → extractSampleWeightTensors features = (features, none))
    ∧ (∀ m : List (String × PyVal),
        pyKeySetEq (pyKeys m) ["features", "sample_weights"] = true ↔
          ∀ k, k ∈ pyKeys m ↔ (k = "features" ∨ k = "sample_weights")) := by
  refine ⟨?_, ?_, ?_, ?_⟩
  · rintro m rfl hset
    simp [extractSampleWeightTensors, hset]
  · rintro m rfl hset
    simp [extractSampleWeightTensors, hset]
  · intro h
    cases features with
    | pydict m => exact absurd rfl (h m)
    | tensor n => rfl
    | numpy n => rfl
    | pynone => rfl
    | pylist xs => rfl
  · intro m
    simp only [pyKeySetEq, Bool.and_eq_true, List.all_eq_true, decide_eq_true_eq]
    constructor
    · intro ⟨h1, h2⟩ k
      constructor
      · intro hk
        simpa using h1 k hk
      · intro hk
        rcases hk with rfl | rfl
        · exact h2 "features" (by simp)
        · exact h2 "sample_weights" (by simp)
    · intro hiff
      constructor
      · intro k hk
        simp [(hiff k).mp hk]
      · intro k hk
        apply (hiff k).mpr
        simpa using hk

/-- Witness for C9: a concrete dict with exactly the two keys is split into
feature value and sample weights. -/
theorem extractSampleWeightTensors_key_set_witness :
    extractSampleWeightTensors
        (.pydict [("features", .tensor 1), ("sample_weights", .tensor 2)])
      = (.tensor 1, some (.tensor 2)) :=
  (extractSampleWeightTensors_key_set
      (.pydict [("features", .tensor 1), ("sample_weights", .tensor 2)])).1
    [("features", .tensor 1), ("sample_weights", .tensor 2)] rfl (by decide)

/-- C6: in `model_fn`, when a distribution strategy is active each output
name used as a prediction key is the model's output name with a trailing
underscore-plus-single-digit suffix (the pattern `_\d` anchored at the end)
removed, and with no strategy the names are used unchanged; names without
such a suffix are left as they are, and every prediction key comes from
`model_output_names`. -/
theorem modelFn_output_name_normalization (names : List String) (outputs : List PyVal) :
    (modelOutputNames false names = names)
    ∧ (modelOutputNames true names = names.map stripReplicaSuffix)
    ∧ (∀ (p : List Char) (d : Char), pyIsDigit d = true →
        stripReplicaSuffix (String.mk (p ++ ['_', d])) = String.mk p)
    ∧ (∀ s : String, endsInUnderscoreDigit s = false →
        endsInUnderscoreDigitNewline s = false → stripReplicaSuffix s = s)
    ∧ (∀ (b : Bool) (k : String), k ∈ pyKeys (predictionsDict b names outputs) →
        k ∈ modelOutputNames b names) := by
  refine ⟨rfl, rfl, ?_, ?_, ?_⟩
  · intro p d hd
    simp [stripReplicaSuffix, stripCore, List.reverse_append, hd]
  · intro s h1 h2
    rcases hrev : s.data.reverse with _ | ⟨c1, _ | ⟨c2, _ | ⟨c3, rest⟩⟩⟩ <;>
      simp only [endsInUnderscoreDigit, endsInUnderscoreDigitNewline, hrev] at h1 h2 <;>
      simp only [stripReplicaSuffix, stripCore, hrev]
    · by_cases hc : c1 == '\n' <;> simp [hc]
    · simp only [h1]
      by_cases hc : c1 == '\n' <;> simp [hc]
    · simp only [h1]
      by_cases hc : c1 == '\n'
      · simp only [hc, if_true]
        have hin : (c3 == '_' && pyIsDigit c2) = false := by
          simpa [hc] using h2
        simp [hin]
      · simp [hc]
  · intro b k hk
    rw [predictionsDict, pyKeys_pyDictOfPairs_mem] at hk
    rcases List.mem_map.mp hk with ⟨pr, hpr, hfst⟩
    rcases pr with ⟨k', v⟩
    cases hfst
    exact (List.of_mem_zip hpr).1

/-- Witness for C6: a concrete name with the `_\d` suffix is normalized by
dropping the suffix. -/
theorem modelFn_output_name_normalization_witness :
    stripReplicaSuffix (String.mk (['o', 'u', 't'] ++ ['_', '1'])) = String.mk ['o', 'u', 't'] :=
  (modelFn_output_name_normalization [] []).2.2.1 ['o', 'u', 't'] '1' (by decide)

/-- C1: when neither or both of `keras_model` and `keras_model_path` are
provided (in the Python truthiness sense the source tests at line 591: a
model object is truthy, a path is truthy when it is a non-empty string), the
call raises a `ValueError` with an empty effect trace — no directory
creation, no remote download, no model loading, no checkpoint writing, and
no logging happen first. -/
theorem modelToEstimator_rejects_conflicting_model_args (env : Env) (a : MTEArgs)
    (h : (kerasModelTruthy a = false ∧ kerasModelPathTruthy a = false)
        ∨ (kerasModelTruthy a = true ∧ kerasModelPathTruthy a = true)) :
    ∃ msg, modelToEstimator env a
      = (.error (.valueError msg), ([] : List Effect)) := by
  rcases h with ⟨h1, h2⟩ | ⟨h1, h2⟩
  · exact ⟨"Either `keras_model` or `keras_model_path` needs to be provided.",
      by simp [modelToEstimator, h1, h2]⟩
  · exact ⟨"Please specity either `keras_model` or `keras_model_path`, "
        ++ "but not both.",
      by simp [modelToEstimator, h1, h2]⟩

/-- Witness for C1: the call with neither argument fails with a `ValueError`
and performs no effect at all. -/
theorem modelToEstimator_rejects_conflicting_model_args_witness :
    ∃ msg, modelToEstimator exampleEnv emptyMTEArgs
      = (.error (.valueError msg), ([] : List Effect)) :=
  modelToEstimator_rejects_conflicting_model_args exampleEnv emptyMTEArgs
    (Or.inl ⟨rfl, rfl⟩)

/-- C3: a call passing an uncompiled `keras_model` (no truthy `optimizer`
attribute) raises a `ValueError`, whatever the values of all the other
arguments are. -/
theorem modelToEstimator_uncompiled_model_rejected (env : Env) (a : MTEArgs)
    (km : KerasModel) (hm : a.kerasModel = some km)
    (hopt : (km.hasOptimizerAttr && km.optimizerTruthy) = false) :
    ∃ msg, (modelToEstimator env a).1 = .error (.valueError msg) := by
  have hmt : kerasModelTruthy a = true := by simp [kerasModelTruthy, hm]
  by_cases hp : kerasModelPathTruthy a = true
  · exact ⟨"Please specity either `keras_model` or `keras_model_path`, "
        ++ "but not both.", by simp [modelToEstimator, hmt, hp]⟩
  · have hp' : kerasModelPathTruthy a = false := by simpa using hp
    rcases assertValidModel_ok_or_valueError km a.customObjects with hok | ⟨msg, herr⟩
    · rcases selectCheckpointFormat_ok_or_valueError a.checkpointFormat km with
        ⟨b, hsel⟩ | ⟨msg, hsel⟩
      · refine ⟨"The given keras model has not been compiled yet. "
            ++ "Please compile the model with `model.compile()` "
            ++ "before calling `model_to_estimator()`.", ?_⟩
        simp [modelToEstimator, hmt, hp', hm, hok, obtainModelStage,
          finishStage, hsel, hopt]
      · exact ⟨msg, by
          simp [modelToEstimator, hmt, hp', hm, hok, obtainModelStage,
            finishStage, hsel]⟩
    · exact ⟨msg, by simp [modelToEstimator, hmt, hp', hm, herr]⟩

/-- Concrete argument record with an uncompiled model, for the C3 witness. -/
def uncompiledArgs : MTEArgs :=
  { emptyMTEArgs with kerasModel := some exampleUncompiledModel }

/-- Witness for C3: converting a concrete uncompiled model fails with a
`ValueError`. -/
theorem modelToEstimator_uncompiled_model_rejected_witness :
    ∃ msg, (modelToEstimator exampleEnv uncompiledArgs).1 = .error (.valueError msg) :=
  modelToEstimator_uncompiled_model_rejected exampleEnv uncompiledArgs
    exampleUncompiledModel rfl rfl

/-- C2: for a mapping passed through the I/O tensor mapper's
`_to_ordered_tensor_list`, a structured `FormattedKeyError` is raised if and
only if some key required by the model's input/output order is absent from
the mapping; when every required key is present the ordered tensor list is
returned even if the mapping has extra keys; and the raised message is a
multi-line text enumerating the expected keys, the supplied keys, and the
missing keys (the set of keys in the order that are not supplied). -/
theorem toOrderedTensorList_dict_key_validation
    (m : List (String × PyVal)) (keyOrder : List String) (objName orderName : String) :
    (exceptIsOk (toOrderedTensorList (.pydict m) keyOrder objName orderName) = true
        ↔ ∀ k ∈ keyOrder, k ∈ pyKeys m)
    ∧ ((∀ k ∈ keyOrder, k ∈ pyKeys m) →
        toOrderedTensorList (.pydict m) keyOrder objName orderName
          = .ok (some (keyOrder.map (fun k => convertTensor (pyLookup m k)))))
    ∧ ((∃ k, k ∈ keyOrder ∧ k ∉ pyKeys m) →
        toOrderedTensorList (.pydict m) keyOrder objName orderName
          = .error (.formattedKeyError
              (formattedKeyMessage objName orderName keyOrder (pyKeys m))))
    ∧ (∀ k, k ∈ pySetDiff keyOrder (pyKeys m) ↔ (k ∈ keyOrder ∧ k ∉ pyKeys m))
    ∧ (∃ p₁ p₂ p₃,
        formattedKeyMessage objName orderName keyOrder (pyKeys m)
          = p₁ ++ renderKeySet (pySet keyOrder) ++ p₂ ++ renderKeySet (pySet (pyKeys m))
            ++ p₃ ++ renderKeySet (pySetDiff keyOrder (pyKeys m))
        ∧ '\n' ∈ p₁.data ∧ '\n' ∈ p₂.data ∧ p₃ = "\n\tMissed keys: ") := by
  have hres : toOrderedTensorList (.pydict m) keyOrder objName orderName
      = if pySetDiff keyOrder (pyKeys m) ≠ [] then
          .error (.formattedKeyError
            (formattedKeyMessage objName orderName keyOrder (pyKeys m)))
        else .ok (some (keyOrder.map (fun k => convertTensor (pyLookup m k)))) := rfl
  refine ⟨?_, ?_, ?_, fun k => mem_pySetDiff, ?_⟩
  · by_cases hd : pySetDiff keyOrder (pyKeys m) = []
    · constructor
      · intro _
        exact pySetDiff_eq_nil_iff.mp hd
      · intro _
        rw [hres]
        simp [hd, exceptIsOk]
    · have hnall : ¬ ∀ k ∈ keyOrder, k ∈ pyKeys m :=
        fun hall => hd (pySetDiff_eq_nil_iff.mpr hall)
      rw [hres]
      simp [hd, exceptIsOk, hnall]
  · intro hall
    have hd : pySetDiff keyOrder (pyKeys m) = [] := pySetDiff_eq_nil_iff.mpr hall
    rw [hres]
    simp [hd]
  · rintro ⟨k, hk, hnk⟩
    have hd : pySetDiff keyOrder (pyKeys m) ≠ [] := by
      intro hnil
      exact hnk (pySetDiff_eq_nil_iff.mp hnil k hk)
    rw [hres]
    simp [hd]
  · refine ⟨"The dictionary passed into " ++ objName ++ " does not cover requested "
        ++ orderName ++ " keys defined in the keras model." ++ "\n\tExpected keys: ",
      "\n\t" ++ objName ++ " keys: ", "\n\tMissed keys: ", ?_, ?_, ?_, rfl⟩
    · apply String.ext
      simp [formattedKeyMessage, String.data_append, List.append_assoc]
    · simp [String.data_append]
    · simp [String.data_append]

/-- Witness for C2: a concrete mapping covering the single requested key (and
holding an extra key) is converted to the ordered tensor list. -/
theorem toOrderedTensorList_dict_key_validation_witness :
    toOrderedTensorList (.pydict [("a", .numpy 1), ("extra", .tensor 5)])
        ["a"] "features" "inputs"
      = .ok (some [.tensor 1]) :=
  (toOrderedTensorList_dict_key_validation [("a", .numpy 1), ("extra", .tensor 5)]
    ["a"] "features" "inputs").2.1 (by decide)

/-- C10: for a model with compiled metrics and a non-empty `metric_names_map`,
the metric conversion demands that the map's keys cover the compiled metric
names exactly: a `ValueError` is raised when some compiled metric name is
missing from the map, a `ValueError` is raised when the map holds a key that
is no compiled metric name, and when the key sets agree exactly a dictionary
is returned whose keys are the mapped (custom) names. -/
theorem convertKerasMetricsToEstimator_exact_cover
    (names : List String) (mmap : List (String × String)) (hm : mmap ≠ []) :
    ((∃ n, n ∈ names ∧ n ∉ pyKeys mmap) →
      ∃ msg, convertKerasMetricsToEstimator true names mmap = .error (.valueError msg))
    ∧ ((∀ n ∈ names, n ∈ pyKeys mmap) → (∃ k, k ∈ pyKeys mmap ∧ k ∉ names) →
      ∃ msg, convertKerasMetricsToEstimator true names mmap = .error (.valueError msg))
    ∧ ((∀ k, k ∈ names ↔ k ∈ pyKeys mmap) →
      ∃ d, convertKerasMetricsToEstimator true names mmap = .ok (some d)
        ∧ ∀ k, k ∈ pyKeys d ↔ ∃ n, n ∈ names ∧ assocLookup mmap n = some k) := by
  have hstep : convertKerasMetricsToEstimator true names mmap
      = (if (pySet names).filter (fun k => decide (k ∉ pySet (pyKeys mmap))) ≠ [] then
          .error (.valueError
            ("Invalid `metric_names_map`. "
              ++ "The following keras model metric names:\""
              ++ renderKeyList
                  ((pySet names).filter (fun k => decide (k ∉ pySet (pyKeys mmap))))
              ++ "\" do not exist in the `metric_names_map` dictionary"))
        else if (pySet (pyKeys mmap)).filter (fun k => decide (k ∉ pySet names)) ≠ [] then
          .error (.valueError
            ("Invalid `metric_names_map`. "
              ++ "There are unexpected keys in the `metric_names_map` "
              ++ "dictionary. Expected keys: " ++ renderKeyList (pySet names)
              ++ ", Received: "
              ++ renderKeyList
                  ((pySet (pyKeys mmap)).filter (fun k => decide (k ∉ pySet names)))))
        else .ok (some (pyDictOfPairs (names.map
          (fun n => ((assocLookup mmap n).getD n, n)))))) := by
    show (if (!true) = true then _ else _) = _
    rw [if_neg (by simp), if_pos hm]
  refine ⟨?_, ?_, ?_⟩
  · rintro ⟨n, hn, hnk⟩
    have hu : n ∈ (pySet names).filter (fun k => decide (k ∉ pySet (pyKeys mmap))) := by
      simp [List.mem_filter, mem_pySet, hn, hnk]
    have hne : (pySet names).filter (fun k => decide (k ∉ pySet (pyKeys mmap))) ≠ [] :=
      List.ne_nil_of_mem hu
    refine ⟨"Invalid `metric_names_map`. "
        ++ "The following keras model metric names:\""
        ++ renderKeyList ((pySet names).filter (fun k => decide (k ∉ pySet (pyKeys mmap))))
        ++ "\" do not exist in the `metric_names_map` dictionary", ?_⟩
    rw [hstep, if_pos hne]
  · rintro hall ⟨k, hk, hkn⟩
    have hu_nil : (pySet names).filter (fun k => decide (k ∉ pySet (pyKeys mmap))) = [] := by
      rw [List.filter_eq_nil_iff]
      intro a ha
      simp only [mem_pySet] at ha
      simp [mem_pySet, hall a ha]
    have hx : k ∈ (pySet (pyKeys mmap)).filter (fun k => decide (k ∉ pySet names)) := by
      simp [List.mem_filter, mem_pySet, hk, hkn]
    have hne : (pySet (pyKeys mmap)).filter (fun k => decide (k ∉ pySet names)) ≠ [] :=
      List.ne_nil_of_mem hx
    refine ⟨"Invalid `metric_names_map`. "
        ++ "There are unexpected keys in the `metric_names_map` "
        ++ "dictionary. Expected keys: " ++ renderKeyList (pySet names)
        ++ ", Received: "
        ++ renderKeyList ((pySet (pyKeys mmap)).filter (fun k => decide (k ∉ pySet names))), ?_⟩
    rw [hstep, if_neg (not_ne_iff.mpr hu_nil), if_pos hne]
  · intro hiff
    have hu_nil : (pySet names).filter (fun k => decide (k ∉ pySet (pyKeys mmap))) = [] := by
      rw [List.filter_eq_nil_iff]
      intro a ha
      simp only [mem_pySet] at ha
      simp [mem_pySet, (hiff a).mp ha]
    have he_nil : (pySet (pyKeys mmap)).filter (fun k => decide (k ∉ pySet names)) = [] := by
      rw [List.filter_eq_nil_iff]
      intro a ha
      simp only [mem_pySet] at ha
      simp [mem_pySet, (hiff a).mpr ha]
    refine ⟨pyDictOfPairs (names.map (fun n => ((assocLookup mmap n).getD n, n))), ?_, ?_⟩
    · rw [hstep, if_neg (not_ne_iff.mpr hu_nil), if_neg (not_ne_iff.mpr he_nil)]
    · intro k
      rw [pyKeys_pyDictOfPairs_mem]
      simp only [pyKeys, List.map_map]
      constructor
      · intro hk
        rcases List.mem_map.mp hk with ⟨n, hn, heq⟩
        have hnk : n ∈ pyKeys mmap := (hiff n).mp hn
        rcases assocLookup_isSome_iff.mpr hnk with ⟨v, hv⟩
        refine ⟨n, hn, ?_⟩
        rw [hv]
        simp only [Function.comp_apply, hv, Option.getD_some] at heq
        rw [heq]
      · rintro ⟨n, hn, hv⟩
        apply List.mem_map.mpr
        exact ⟨n, hn, by simp [hv]⟩

/-- Witness for C10: an exactly matching map on a concrete model yields a
dictionary keyed by the custom name. -/
theorem convertKerasMetricsToEstimator_exact_cover_witness :
    ∃ d, convertKerasMetricsToEstimator true ["out_acc"] [("out_acc", "accuracy")]
        = .ok (some d)
      ∧ ∀ k, k ∈ pyKeys d ↔
          ∃ n, n ∈ ["out_acc"] ∧ assocLookup [("out_acc", "accuracy")] n = some k :=
  (convertKerasMetricsToEstimator_exact_cover ["out_acc"] [("out_acc", "accuracy")]
    (by decide)).2.2 (fun k => Iff.rfl)

end KerasEstimator
